import Mathlib

/-!
Shallow embedding of the Lighthouse microservice (src/index.ts).

The service accepts POST /analyze requests, validates the url field,
answers immediately with a generated test id and status "pending", and
then runs the audit in the background: it launches a fresh browser
context, invokes the lighthouse engine, extracts the lhr report, and
forwards a summary to a collector API, logging along the way.

External collaborators (puppeteer launch, the lighthouse engine, the
node URL parser, the axios POST) are modelled as oracle inputs; the
control flow of the TypeScript source is translated literally into
trace-producing Lean functions.  JavaScript numbers for category scores
are modelled as exact rationals.
-/

namespace Lighthouse

/-- A category entry of the report: data.score may be absent or null
(modelled as none).  Mirrors the untyped access in src/index.ts line 45. -/
structure CategoryData where
  score : Option ℚ
  deriving DecidableEq, Repr

/-- An audit entry of the report: displayValue may be absent. -/
structure Audit where
  displayValue : Option String
  deriving DecidableEq, Repr

/-- The lhr report consumed by sendResultsToAPI: finalUrl, requestedUrl,
categories and audits may each be absent (undefined in JS). -/
structure Report where
  finalUrl : Option String
  requestedUrl : Option String
  categories : Option (List (String × CategoryData))
  audits : Option (List (String × Audit))
  deriving DecidableEq, Repr

/-- The value resolved by the lighthouse engine call: it may carry an
lhr field or not (src/index.ts line 29 tests both). -/
structure RunnerResult where
  lhr : Option Report
  deriving DecidableEq, Repr

/-- Outcome of the puppeteer.launch call (line 16). -/
inductive LaunchOutcome where
  | ok
  | fail (msg : String)
  deriving DecidableEq, Repr

/-- Outcome of the lighthouse engine call (line 22): it resolves with a
possibly-undefined RunnerResult, or rejects. -/
inductive EngineOutcome where
  | ok (res : Option RunnerResult)
  | fail (msg : String)
  deriving DecidableEq, Repr

/-- Outcome of the axios.post call to the collector (line 63). -/
inductive PostOutcome where
  | ok
  | fail (msg : String)
  deriving DecidableEq, Repr

/-- Body of a JSON HTTP response sent by the /analyze handler. -/
inductive RespBody where
  | pending (id : String) (message : String)
  | error (msg : String)
  deriving DecidableEq, Repr

/-- Observable events of one request, in program order.  Log events are
structured: they carry exactly the computed values interpolated into the
corresponding console call of the source. -/
inductive Event where
  | respond (status : Nat) (body : RespBody)
  | logAccept (testId : String) (url : String)
  | schedule (testId : String) (url : String)
  | launchCtx (ctx : Nat)
  | engineCall (ctx : Nat) (url : String)
  | closeCtx (ctx : Nat)
  | logDone (testId : String)
  | logEngineError (testId : String) (msg : String)
  | callDeliver (testId : String) (results : Option Report)
  | logResultsHeader (testId : String)
  | logCategory (category : String) (score : ℤ) (emoji : String)
  | logMetrics (fcp : String) (lcp : String) (totalSize : String)
  | postCollector (testId : String)
  | logSendSuccess
  | logSendError (parts : List String)
  deriving DecidableEq, Repr

/-- JS truthiness test applied to body.url at line 113: undefined or the
empty string are falsy. -/
def urlFalsy : Option String → Bool
  | none => true
  | some s => s = ""

/-- The character rendering one decimal digit. -/
def digitChar : Nat → Char
  | 0 => '0'
  | 1 => '1'
  | 2 => '2'
  | 3 => '3'
  | 4 => '4'
  | 5 => '5'
  | 6 => '6'
  | 7 => '7'
  | 8 => '8'
  | _ => '9'

/-- Decimal rendering of a nonnegative JS integer as interpolated by a
template string: most significant digit first, and 0 renders as "0". -/
def natDecimal (n : Nat) : String :=
  if n = 0 then "0" else String.mk (((Nat.digits 10 n).map digitChar).reverse)

/-- Line 124: test_${Date.now()}_${random suffix}. -/
def mkTestId (now : Nat) (rand : String) : String :=
  "test_" ++ natDecimal now ++ "_" ++ rand

/-- Line 45: data.score || 0 (undefined, null and 0 all collapse to 0). -/
def scoreOrZero : Option ℚ → ℚ
  | none => 0
  | some q => q

/-- Math.round on a rational: floor of x + 1/2. -/
def jsRound (q : ℚ) : ℤ := ⌊q + 1/2⌋

/-- Line 45: Math.round((data.score || 0) * 100). -/
def catScore (d : CategoryData) : ℤ := jsRound (scoreOrZero d.score * 100)

/-- Line 46: score >= 90 green, score >= 50 yellow, otherwise red. -/
def catEmoji (s : ℤ) : String :=
  if s ≥ 90 then "🟢" else if s ≥ 50 then "🟡" else "🔴"

/-- Lines 52-54: results.audits?.[name] — optional chaining through a
possibly-absent audits map. -/
def getAudit (audits : Option (List (String × Audit))) (name : String) :
    Option Audit :=
  match audits with
  | none => none
  | some l => l.lookup name

/-- Lines 52-54: results.audits?.[name]?.displayValue || "N/A".  A missing
audit, a missing displayValue and an empty displayValue all render "N/A". -/
def displayOrNA (audits : Option (List (String × Audit))) (name : String) :
    String :=
  match getAudit audits name with
  | none => "N/A"
  | some a =>
    match a.displayValue with
    | none => "N/A"
    | some s => if s = "" then "N/A" else s

/-- Lines 43-49: the per-category score lines, skipped as a whole when
results.categories is falsy, one line per Object.entries entry. -/
def categoryEvents : Option (List (String × CategoryData)) → List Event
  | none => []
  | some cats =>
    cats.map (fun p => Event.logCategory p.1 (catScore p.2)
      (catEmoji (catScore p.2)))

/-- Lines 63-71: the tail of sendResultsToAPI after the axios.post call:
a success log, or the caught error logged without the testId. -/
def postTail : PostOutcome → List Event
  | PostOutcome.ok => [Event.logSendSuccess]
  | PostOutcome.fail m => [Event.logSendError [m]]

/-- Lines 36-73, sendResultsToAPI(testId, results).  results is the value
returned by executeLighthouse and may be undefined (none); accessing
results.finalUrl then raises a TypeError that the surrounding try/catch
swallows at line 70, so no POST is made.  Otherwise the summary logs are
produced, one axios.post is attempted, and its failure is caught and
logged (line 71 logs the error only, without the testId). -/
def sendResultsToAPI (testId : String) (results : Option Report)
    (post : PostOutcome) : List Event :=
  match results with
  | none =>
    [Event.logSendError ["TypeError: cannot read properties of undefined"]]
  | some r =>
    Event.logResultsHeader testId ::
      categoryEvents r.categories ++
      [Event.logMetrics (displayOrNA r.audits "first-contentful-paint")
        (displayOrNA r.audits "largest-contentful-paint")
        (displayOrNA r.audits "total-byte-weight"),
       Event.postCollector testId] ++
      postTail post

/-- Line 29: runnerResult && (lhr in runnerResult) ? runnerResult.lhr :
undefined. -/
def extractLhr : Option RunnerResult → Option Report
  | none => none
  | some r => r.lhr

/-- Lines 15-34, executeLighthouse(url, options).  A fresh browser context
ctx is launched; the try/finally guarantees browser.close() runs whether
the engine call resolves or rejects; an engine rejection propagates after
the close.  If the launch itself rejects, no context was acquired and the
rejection propagates immediately. -/
def executeLighthouse (ctx : Nat) (url : String) (launch : LaunchOutcome)
    (engine : EngineOutcome) : List Event × Except String (Option Report) :=
  match launch with
  | LaunchOutcome.fail m => ([], Except.error m)
  | LaunchOutcome.ok =>
    match engine with
    | EngineOutcome.ok res =>
      ([Event.launchCtx ctx, Event.engineCall ctx url, Event.closeCtx ctx],
       Except.ok (extractLhr res))
    | EngineOutcome.fail m =>
      ([Event.launchCtx ctx, Event.engineCall ctx url, Event.closeCtx ctx],
       Except.error m)

/-- Lines 136-143: the un-awaited promise chain scheduled by the handler.
On resolution the then-handler logs completion and calls
sendResultsToAPI; on rejection the catch-handler logs the testId and the
error message.  sendResultsToAPI never rejects, so the catch only sees
engine-side failures. -/
def backgroundJob (testId : String) (url : String) (ctx : Nat)
    (launch : LaunchOutcome) (engine : EngineOutcome) (post : PostOutcome) :
    List Event :=
  let r := executeLighthouse ctx url launch engine
  match r.2 with
  | Except.ok results =>
    r.1 ++ [Event.logDone testId, Event.callDeliver testId results] ++
      sendResultsToAPI testId results post
  | Except.error m => r.1 ++ [Event.logEngineError testId m]

/-- The parsed body of a POST /analyze request: the url field may be
absent, options are passed through opaquely. -/
structure AnalyzeBody where
  url : Option String
  options : List (String × String)
  deriving DecidableEq, Repr

/-- A scheduled background job, as handed off by the gateway. -/
structure ScheduledJob where
  testId : String
  url : String
  options : List (String × String)
  deriving DecidableEq, Repr

/-- Lines 110-143, the POST /analyze branch of the request handler.
validURL is the external node URL parser (true when new URL(s) does not
throw); now and rand are the Date.now() and Math.random() oracle values.
Returns the events emitted synchronously by the handler and the job it
scheduled, if any. -/
def handleAnalyze (body : AnalyzeBody) (validURL : String → Bool)
    (now : Nat) (rand : String) : List Event × Option ScheduledJob :=
  if urlFalsy body.url then
    ([Event.respond 400 (RespBody.error "URL requise")], none)
  else
    let u := body.url.getD ""
    if validURL u then
      let testId := mkTestId now rand
      ([Event.logAccept testId u,
        Event.respond 200 (RespBody.pending testId "Test Lighthouse en cours..."),
        Event.schedule testId u],
       some ⟨testId, u, body.options⟩)
    else
      ([Event.respond 400 (RespBody.error "URL invalide")], none)

/-- The complete observable trace of one /analyze request: the handler
events followed, when a job was scheduled, by the background job events.
The response event is emitted before any background event because the
source sends the response (line 129) before invoking executeLighthouse
(line 136). -/
def fullAnalyze (body : AnalyzeBody) (validURL : String → Bool)
    (now : Nat) (rand : String) (ctx : Nat) (launch : LaunchOutcome)
    (engine : EngineOutcome) (post : PostOutcome) : List Event :=
  let h := handleAnalyze body validURL now rand
  match h.2 with
  | none => h.1
  | some j => h.1 ++ backgroundJob j.testId j.url ctx launch engine post

/-- Whether an event is an HTTP response to the caller. -/
def Event.isRespond : Event → Bool
  | Event.respond _ _ => true
  | _ => false

/-- Whether an event is a POST to the collector. -/
def Event.isPost : Event → Bool
  | Event.postCollector _ => true
  | _ => false

/-- Whether an event is a call of the delivery routine. -/
def Event.isDeliver : Event → Bool
  | Event.callDeliver _ _ => true
  | _ => false

/-- The browser contexts an event mentions. -/
def Event.ctxs : Event → List Nat
  | Event.launchCtx c => [c]
  | Event.engineCall c _ => [c]
  | Event.closeCtx c => [c]
  | _ => []

/-- Whether an event is the caught-transport-error log of line 71. -/
def Event.isSendErrorLog : Event → Bool
  | Event.logSendError _ => true
  | _ => false

/-- All browser contexts mentioned by a trace. -/
def traceCtxs : List Event → List Nat
  | [] => []
  | e :: tr => e.ctxs ++ traceCtxs tr

lemma categoryEvents_countP_eq_zero (p : Event → Bool)
    (hp : ∀ c s em, p (Event.logCategory c s em) = false)
    (cats : Option (List (String × CategoryData))) :
    (categoryEvents cats).countP p = 0 := by
  cases cats with
  | none => rfl
  | some l =>
    rw [categoryEvents, List.countP_map]
    exact List.countP_eq_zero.mpr (by intro a _; simp [hp])

lemma mem_categoryEvents (cats : Option (List (String × CategoryData)))
    (e : Event) (he : e ∈ categoryEvents cats) :
    ∃ c s em, e = Event.logCategory c s em := by
  cases cats with
  | none => cases he
  | some l =>
    rw [categoryEvents] at he
    obtain ⟨p, -, hp⟩ := List.mem_map.mp he
    exact ⟨p.1, catScore p.2, catEmoji (catScore p.2), hp.symm⟩

lemma sendResults_countP_respond (testId : String) (results : Option Report)
    (post : PostOutcome) :
    (sendResultsToAPI testId results post).countP Event.isRespond = 0 := by
  cases results with
  | none => cases post <;> rfl
  | some r =>
    cases post <;>
      simp [sendResultsToAPI, postTail, List.countP_cons, List.countP_append,
        Event.isRespond,
        categoryEvents_countP_eq_zero Event.isRespond (fun _ _ _ => rfl)]

lemma sendResults_countP_post_le_one (testId : String) (results : Option Report)
    (post : PostOutcome) :
    (sendResultsToAPI testId results post).countP Event.isPost ≤ 1 := by
  cases results with
  | none => cases post <;> simp [sendResultsToAPI, List.countP_cons, Event.isPost]
  | some r =>
    cases post <;>
      simp [sendResultsToAPI, postTail, List.countP_cons, List.countP_append,
        Event.isPost,
        categoryEvents_countP_eq_zero Event.isPost (fun _ _ _ => rfl)]

lemma backgroundJob_countP_respond (testId url : String) (ctx : Nat)
    (launch : LaunchOutcome) (engine : EngineOutcome) (post : PostOutcome) :
    (backgroundJob testId url ctx launch engine post).countP Event.isRespond = 0 := by
  cases launch with
  | fail m => rfl
  | ok =>
    cases engine with
    | fail m => rfl
    | ok res =>
      simp [backgroundJob, executeLighthouse, List.countP_cons, List.countP_append,
        Event.isRespond, sendResults_countP_respond]

lemma backgroundJob_no_respond (testId url : String) (ctx : Nat)
    (launch : LaunchOutcome) (engine : EngineOutcome) (post : PostOutcome) :
    ∀ e ∈ backgroundJob testId url ctx launch engine post, e.isRespond = false := by
  intro e he
  have h := List.countP_eq_zero.mp
    (backgroundJob_countP_respond testId url ctx launch engine post) e he
  exact Bool.eq_false_iff.mpr h

lemma backgroundJob_countP_post_le_one (testId url : String) (ctx : Nat)
    (launch : LaunchOutcome) (engine : EngineOutcome) (post : PostOutcome) :
    (backgroundJob testId url ctx launch engine post).countP Event.isPost ≤ 1 := by
  cases launch with
  | fail m => simp [backgroundJob, executeLighthouse, List.countP_cons, Event.isPost]
  | ok =>
    cases engine with
    | fail m =>
      simp [backgroundJob, executeLighthouse, List.countP_cons, Event.isPost]
    | ok res =>
      simpa [backgroundJob, executeLighthouse, List.countP_cons, List.countP_append,
        Event.isPost] using
        sendResults_countP_post_le_one testId (extractLhr res) post

/-- C1: for every valid analyze request, the HTTP response carrying the
fresh id and status pending is emitted strictly before all events of the
background execution, and no background event, for any launch, engine or
collector outcome, is an HTTP response: the eventual success or failure
of the audit never reaches the already-sent response. -/
theorem respond_precedes_background (body : AnalyzeBody)
    (validURL : String → Bool) (now : Nat) (rand : String) (ctx : Nat)
    (launch : LaunchOutcome) (engine : EngineOutcome) (post : PostOutcome)
    (hurl : urlFalsy body.url = false)
    (hvalid : validURL (body.url.getD "") = true) :
    fullAnalyze body validURL now rand ctx launch engine post =
      [Event.logAccept (mkTestId now rand) (body.url.getD ""),
       Event.respond 200 (RespBody.pending (mkTestId now rand)
         "Test Lighthouse en cours..."),
       Event.schedule (mkTestId now rand) (body.url.getD "")] ++
        backgroundJob (mkTestId now rand) (body.url.getD "") ctx launch engine
          post ∧
    ∀ e ∈ backgroundJob (mkTestId now rand) (body.url.getD "") ctx launch
        engine post, e.isRespond = false := by
  constructor
  · simp [fullAnalyze, handleAnalyze, hurl, hvalid]
  · exact backgroundJob_no_respond _ _ _ _ _ _

/-- Witness for C1 at a concrete valid request. -/
theorem respond_precedes_background_witness :
    fullAnalyze ⟨some "https://example.com", []⟩ (fun _ => true) 3 "abc" 0
        LaunchOutcome.ok (EngineOutcome.fail "boom") PostOutcome.ok =
      [Event.logAccept (mkTestId 3 "abc") "https://example.com",
       Event.respond 200 (RespBody.pending (mkTestId 3 "abc")
         "Test Lighthouse en cours..."),
       Event.schedule (mkTestId 3 "abc") "https://example.com"] ++
        backgroundJob (mkTestId 3 "abc") "https://example.com" 0
          LaunchOutcome.ok (EngineOutcome.fail "boom") PostOutcome.ok ∧
    ∀ e ∈ backgroundJob (mkTestId 3 "abc") "https://example.com" 0
        LaunchOutcome.ok (EngineOutcome.fail "boom") PostOutcome.ok,
      e.isRespond = false :=
  respond_precedes_background ⟨some "https://example.com", []⟩ (fun _ => true)
    3 "abc" 0 LaunchOutcome.ok (EngineOutcome.fail "boom") PostOutcome.ok
    (by decide) rfl

/-- C2 (amended): a missing or empty url yields 400 with the body
error "URL requise" and schedules no job, for every URL validity oracle,
so the presence check precedes the parse check; a present url rejected
by the parser yields 400 with the body error "URL invalide" and
schedules no job. -/
theorem analyze_validation (body : AnalyzeBody) (validURL : String → Bool)
    (now : Nat) (rand : String) :
    (urlFalsy body.url = true →
      handleAnalyze body validURL now rand =
        ([Event.respond 400 (RespBody.error "URL requise")], none)) ∧
    (urlFalsy body.url = false → validURL (body.url.getD "") = false →
      handleAnalyze body validURL now rand =
        ([Event.respond 400 (RespBody.error "URL invalide")], none)) := by
  constructor
  · intro h
    simp [handleAnalyze, h]
  · intro h hv
    simp [handleAnalyze, h, hv]

/-- Witness for C2 at a request without url and at a request with an
unparsable url. -/
theorem analyze_validation_witness :
    handleAnalyze ⟨none, []⟩ (fun _ => true) 0 "a" =
      ([Event.respond 400 (RespBody.error "URL requise")], none) ∧
    handleAnalyze ⟨some "notaurl", []⟩ (fun _ => false) 0 "a" =
      ([Event.respond 400 (RespBody.error "URL invalide")], none) :=
  ⟨(analyze_validation ⟨none, []⟩ (fun _ => true) 0 "a").1 rfl,
   (analyze_validation ⟨some "notaurl", []⟩ (fun _ => false) 0 "a").2
     (by decide) rfl⟩

/-- C2 counterexample: at the concrete request with no url field, the
code responds 400 with the French body error "URL requise", which is not
the literal error "URL required" the claim states (and likewise the
invalid-url branch answers "URL invalide", not "URL invalid"). -/
theorem analyze_error_message_counterexample :
    (handleAnalyze ⟨none, []⟩ (fun _ => false) 0 "a").1 =
      [Event.respond 400 (RespBody.error "URL requise")] ∧
    RespBody.error "URL requise" ≠ RespBody.error "URL required" ∧
    (handleAnalyze ⟨some "::", []⟩ (fun _ => false) 0 "a").1 =
      [Event.respond 400 (RespBody.error "URL invalide")] ∧
    RespBody.error "URL invalide" ≠ RespBody.error "URL invalid" := by
  exact ⟨rfl, by decide, rfl, by decide⟩

/-- C3: when the engine invocation rejects, the background job records
the job id together with the error message in a log, never calls the
delivery routine, never posts to the collector, and emits no HTTP
response, so the failure reaches no caller. -/
theorem engine_failure_no_deliver (testId url : String) (ctx : Nat)
    (m : String) (post : PostOutcome) :
    Event.logEngineError testId m ∈
      backgroundJob testId url ctx LaunchOutcome.ok (EngineOutcome.fail m)
        post ∧
    ∀ e ∈ backgroundJob testId url ctx LaunchOutcome.ok
        (EngineOutcome.fail m) post,
      e.isDeliver = false ∧ e.isPost = false ∧ e.isRespond = false := by
  constructor
  · simp [backgroundJob, executeLighthouse]
  · intro e he
    simp only [backgroundJob, executeLighthouse, List.cons_append,
      List.nil_append, List.mem_cons, List.not_mem_nil, or_false] at he
    rcases he with he | he | he | he <;> subst he <;> exact ⟨rfl, rfl, rfl⟩

/-- Witness for C3 at a concrete failing engine run. -/
theorem engine_failure_no_deliver_witness :
    Event.logEngineError "test_1_a" "boom" ∈
      backgroundJob "test_1_a" "https://example.com" 0 LaunchOutcome.ok
        (EngineOutcome.fail "boom") PostOutcome.ok ∧
    ∀ e ∈ backgroundJob "test_1_a" "https://example.com" 0 LaunchOutcome.ok
        (EngineOutcome.fail "boom") PostOutcome.ok,
      e.isDeliver = false ∧ e.isPost = false ∧ e.isRespond = false :=
  engine_failure_no_deliver "test_1_a" "https://example.com" 0 "boom"
    PostOutcome.ok

/-- C4: in executeLighthouse the number of context releases equals the
number of context acquisitions on every exit path (engine success,
engine rejection, and launch rejection where nothing was acquired); when
a context is acquired it is closed after the engine call; a run only
ever touches its own context, and two runs on distinct fresh contexts
touch disjoint contexts. -/
theorem context_release_balanced (ctx : Nat) (url : String)
    (launch : LaunchOutcome) (engine : EngineOutcome) :
    (executeLighthouse ctx url launch engine).1.count (Event.closeCtx ctx) =
      (executeLighthouse ctx url launch engine).1.count
        (Event.launchCtx ctx) ∧
    (launch = LaunchOutcome.ok →
      (executeLighthouse ctx url launch engine).1 =
        [Event.launchCtx ctx, Event.engineCall ctx url,
         Event.closeCtx ctx]) ∧
    (∀ c ∈ traceCtxs (executeLighthouse ctx url launch engine).1, c = ctx) ∧
    (∀ ctx₂ url₂ launch₂ engine₂, ctx₂ ≠ ctx →
      ∀ c ∈ traceCtxs (executeLighthouse ctx₂ url₂ launch₂ engine₂).1,
        c ∉ traceCtxs (executeLighthouse ctx url launch engine).1) := by
  refine ⟨?_, ?_, ?_, ?_⟩
  · cases launch <;> cases engine <;>
      simp [executeLighthouse, List.count_cons, List.count_nil]
  · intro h
    subst h
    cases engine <;> rfl
  · intro c hc
    cases launch <;> cases engine <;>
      simp_all [executeLighthouse, traceCtxs, Event.ctxs]
  · intro ctx₂ url₂ launch₂ engine₂ hne c hc hc1
    have h2 : c = ctx₂ := by
      cases launch₂ <;> cases engine₂ <;>
        simp_all [executeLighthouse, traceCtxs, Event.ctxs]
    have h1 : c = ctx := by
      cases launch <;> cases engine <;>
        simp_all [executeLighthouse, traceCtxs, Event.ctxs]
    exact hne (h1 ▸ h2.symm)

/-- Witness for C4 at a concrete run, with a second run on a distinct
context. -/
theorem context_release_balanced_witness :
    (executeLighthouse 5 "https://example.com" LaunchOutcome.ok
        (EngineOutcome.ok none)).1.count (Event.closeCtx 5) =
      (executeLighthouse 5 "https://example.com" LaunchOutcome.ok
        (EngineOutcome.ok none)).1.count (Event.launchCtx 5) ∧
    (LaunchOutcome.ok = LaunchOutcome.ok →
      (executeLighthouse 5 "https://example.com" LaunchOutcome.ok
        (EngineOutcome.ok none)).1 =
        [Event.launchCtx 5, Event.engineCall 5 "https://example.com",
         Event.closeCtx 5]) ∧
    (∀ c ∈ traceCtxs (executeLighthouse 5 "https://example.com"
        LaunchOutcome.ok (EngineOutcome.ok none)).1, c = 5) ∧
    (∀ ctx₂ url₂ launch₂ engine₂, ctx₂ ≠ 5 →
      ∀ c ∈ traceCtxs (executeLighthouse ctx₂ url₂ launch₂ engine₂).1,
        c ∉ traceCtxs (executeLighthouse 5 "https://example.com"
          LaunchOutcome.ok (EngineOutcome.ok none)).1) :=
  context_release_balanced 5 "https://example.com" LaunchOutcome.ok
    (EngineOutcome.ok none)

/-- C5 (amended): for every launch, engine and collector outcome at most
one collector post happens per job and no background event is an HTTP
response, so a delivery failure never reaches the original caller; a
transport failure is caught and logged, but the caught-error log carries
only the error, not the job id. -/
theorem delivery_at_most_once (testId url : String) (ctx : Nat)
    (launch : LaunchOutcome) (engine : EngineOutcome) (post : PostOutcome)
    (m : String) (r : Report) :
    (backgroundJob testId url ctx launch engine post).countP
      Event.isPost ≤ 1 ∧
    (∀ e ∈ backgroundJob testId url ctx launch engine post,
      e.isRespond = false) ∧
    Event.logSendError [m] ∈
      backgroundJob testId url ctx LaunchOutcome.ok
        (EngineOutcome.ok (some ⟨some r⟩)) (PostOutcome.fail m) := by
  refine ⟨backgroundJob_countP_post_le_one testId url ctx launch engine post,
    backgroundJob_no_respond testId url ctx launch engine post, ?_⟩
  simp [backgroundJob, executeLighthouse, extractLhr, sendResultsToAPI,
    postTail]

/-- Witness for C5 at a concrete job whose collector post fails. -/
theorem delivery_at_most_once_witness :
    (backgroundJob "test_1_a" "https://example.com" 0 LaunchOutcome.ok
        (EngineOutcome.ok (some ⟨some ⟨none, none, none, none⟩⟩))
        (PostOutcome.fail "ECONNREFUSED")).countP Event.isPost ≤ 1 ∧
    (∀ e ∈ backgroundJob "test_1_a" "https://example.com" 0 LaunchOutcome.ok
        (EngineOutcome.ok (some ⟨some ⟨none, none, none, none⟩⟩))
        (PostOutcome.fail "ECONNREFUSED"), e.isRespond = false) ∧
    Event.logSendError ["ECONNREFUSED"] ∈
      backgroundJob "test_1_a" "https://example.com" 0 LaunchOutcome.ok
        (EngineOutcome.ok (some ⟨some ⟨none, none, none, none⟩⟩))
        (PostOutcome.fail "ECONNREFUSED") :=
  delivery_at_most_once "test_1_a" "https://example.com" 0 LaunchOutcome.ok
    (EngineOutcome.ok (some ⟨some ⟨none, none, none, none⟩⟩))
    (PostOutcome.fail "ECONNREFUSED") "ECONNREFUSED"
    ⟨none, none, none, none⟩

/-- C5 counterexample: at a concrete job whose collector post fails with
ECONNREFUSED, the only caught-transport-error log event carries just the
error message, and the job id is not among its parts, so the failure is
not logged together with the job id. -/
theorem delivery_log_lacks_id_counterexample :
    (backgroundJob "test_7_abc" "https://site.example" 0 LaunchOutcome.ok
        (EngineOutcome.ok (some ⟨some ⟨none, none, none, none⟩⟩))
        (PostOutcome.fail "ECONNREFUSED")).filter Event.isSendErrorLog =
      [Event.logSendError ["ECONNREFUSED"]] ∧
    "test_7_abc" ∉ ["ECONNREFUSED"] := by
  exact ⟨rfl, by decide⟩

lemma jsRound_eq (q : ℚ) (z : ℤ) (h₁ : (z : ℚ) ≤ q + 1/2)
    (h₂ : q + 1/2 < z + 1) : jsRound q = z := by
  rw [jsRound, Int.floor_eq_iff]
  exact ⟨h₁, h₂⟩

lemma catScore_of_095 : catScore ⟨some (95/100)⟩ = 95 := by
  rw [catScore]
  show jsRound ((95 : ℚ)/100 * 100) = 95
  apply jsRound_eq <;> norm_num

lemma catScore_of_040 : catScore ⟨some (40/100)⟩ = 40 := by
  rw [catScore]
  show jsRound ((40 : ℚ)/100 * 100) = 40
  apply jsRound_eq <;> norm_num

lemma catEmoji_green {s : ℤ} (h : 90 ≤ s) : catEmoji s = "🟢" := by
  rw [catEmoji, if_pos h]

lemma catEmoji_yellow {s : ℤ} (h₁ : 50 ≤ s) (h₂ : s < 90) :
    catEmoji s = "🟡" := by
  rw [catEmoji, if_neg (by omega), if_pos h₁]

lemma catEmoji_red {s : ℤ} (h : s < 50) : catEmoji s = "🔴" := by
  rw [catEmoji, if_neg (by omega), if_neg (by omega)]

lemma mem_sendResults_of_mem_categories (testId : String) (r : Report)
    (post : PostOutcome) (cats : List (String × CategoryData))
    (p : String × CategoryData) (hc : r.categories = some cats)
    (hp : p ∈ cats) :
    Event.logCategory p.1 (catScore p.2) (catEmoji (catScore p.2)) ∈
      sendResultsToAPI testId (some r) post := by
  have hmem : Event.logCategory p.1 (catScore p.2) (catEmoji (catScore p.2)) ∈
      categoryEvents r.categories := by
    rw [hc]
    exact List.mem_map_of_mem _ hp
  exact List.mem_cons_of_mem _ (List.mem_append_left _
    (List.mem_append_left _ hmem))

/-- C6: a category score q with 0 ≤ q ≤ 1 renders as an integer between
0 and 100 in the summary line for its category, the tier marker is green
at 90 and above, yellow from 50 to 89 and red below 50, and in
particular 0.95 renders as 95 with the green marker while 0.40 renders
as 40 with the red marker. -/
theorem category_score_rendering (testId : String) (r : Report)
    (post : PostOutcome) (cats : List (String × CategoryData))
    (p : String × CategoryData) (q : ℚ) (s : ℤ)
    (hc : r.categories = some cats) (hp : p ∈ cats)
    (hq : p.2.score = some q) (h0 : 0 ≤ q) (h1 : q ≤ 1) :
    (0 ≤ catScore p.2 ∧ catScore p.2 ≤ 100) ∧
    Event.logCategory p.1 (catScore p.2) (catEmoji (catScore p.2)) ∈
      sendResultsToAPI testId (some r) post ∧
    (90 ≤ s → catEmoji s = "🟢") ∧
    (50 ≤ s → s < 90 → catEmoji s = "🟡") ∧
    (s < 50 → catEmoji s = "🔴") ∧
    catScore ⟨some (95/100)⟩ = 95 ∧ catEmoji 95 = "🟢" ∧
    catScore ⟨some (40/100)⟩ = 40 ∧ catEmoji 40 = "🔴" := by
  refine ⟨⟨?_, ?_⟩,
    mem_sendResults_of_mem_categories testId r post cats p hc hp,
    fun h => catEmoji_green h, fun h₁ h₂ => catEmoji_yellow h₁ h₂,
    fun h => catEmoji_red h,
    catScore_of_095, catEmoji_green (by norm_num),
    catScore_of_040, catEmoji_red (by norm_num)⟩
  · rw [catScore, hq, jsRound]
    rw [Int.le_floor]
    show (0 : ℚ) ≤ q * 100 + 1/2
    nlinarith
  · rw [catScore, hq, jsRound]
    rw [Int.floor_le_iff]
    show q * 100 + 1/2 < 100 + 1
    nlinarith

/-- Witness for C6 at the concrete report with performance 0.95 and
seo 0.40. -/
theorem category_score_rendering_witness :
    (0 ≤ catScore ⟨some (95/100)⟩ ∧ catScore ⟨some (95/100)⟩ ≤ 100) ∧
    Event.logCategory "performance" (catScore ⟨some (95/100)⟩)
        (catEmoji (catScore ⟨some (95/100)⟩)) ∈
      sendResultsToAPI "test_1_a"
        (some ⟨none, none,
          some [("performance", ⟨some (95/100)⟩), ("seo", ⟨some (40/100)⟩)],
          none⟩) PostOutcome.ok ∧
    (90 ≤ (95 : ℤ) → catEmoji 95 = "🟢") ∧
    (50 ≤ (95 : ℤ) → (95 : ℤ) < 90 → catEmoji 95 = "🟡") ∧
    ((95 : ℤ) < 50 → catEmoji 95 = "🔴") ∧
    catScore ⟨some (95/100)⟩ = 95 ∧ catEmoji 95 = "🟢" ∧
    catScore ⟨some (40/100)⟩ = 40 ∧ catEmoji 40 = "🔴" :=
  category_score_rendering "test_1_a"
    ⟨none, none,
      some [("performance", ⟨some (95/100)⟩), ("seo", ⟨some (40/100)⟩)],
      none⟩
    PostOutcome.ok
    [("performance", ⟨some (95/100)⟩), ("seo", ⟨some (40/100)⟩)]
    ("performance", ⟨some (95/100)⟩) (95/100) 95 rfl
    (List.mem_cons_self _ _) rfl (by norm_num) (by norm_num)

/-- C7: a metric whose audit entry is absent, or whose audit entry lacks
a display value, renders as the string N/A; each metric lookup depends
only on its own audit entry, so one missing metric cannot disturb
another; and the metrics line is always part of the summary trace, so a
missing metric raises no error. -/
theorem metrics_default_na (audits audits₂ : Option (List (String × Audit)))
    (name : String) (a : Audit) (testId : String) (r : Report)
    (post : PostOutcome)
    (h1 : getAudit audits name = none)
    (h2 : getAudit audits₂ name = some a) (h3 : a.displayValue = none) :
    displayOrNA audits name = "N/A" ∧
    displayOrNA audits₂ name = "N/A" ∧
    (∀ (b₁ b₂ : Option (List (String × Audit))) (nm : String),
      getAudit b₁ nm = getAudit b₂ nm →
        displayOrNA b₁ nm = displayOrNA b₂ nm) ∧
    Event.logMetrics (displayOrNA r.audits "first-contentful-paint")
        (displayOrNA r.audits "largest-contentful-paint")
        (displayOrNA r.audits "total-byte-weight") ∈
      sendResultsToAPI testId (some r) post := by
  refine ⟨?_, ?_, ?_, ?_⟩
  · rw [displayOrNA, h1]
  · rw [displayOrNA, h2]
    show (match a.displayValue with
      | none => "N/A"
      | some s => if s = "" then "N/A" else s) = "N/A"
    rw [h3]
  · intro b₁ b₂ nm h
    rw [displayOrNA, displayOrNA, h]
  · exact List.mem_cons_of_mem _ (List.mem_append_left _
      (List.mem_append_right _ (List.mem_cons_self _ _)))

/-- Witness for C7 at an audits map without the first-contentful-paint
entry and one whose entry has no display value. -/
theorem metrics_default_na_witness :
    displayOrNA (some []) "first-contentful-paint" = "N/A" ∧
    displayOrNA (some [("first-contentful-paint", ⟨none⟩)])
      "first-contentful-paint" = "N/A" ∧
    (∀ (b₁ b₂ : Option (List (String × Audit))) (nm : String),
      getAudit b₁ nm = getAudit b₂ nm →
        displayOrNA b₁ nm = displayOrNA b₂ nm) ∧
    Event.logMetrics
        (displayOrNA (Report.audits ⟨none, none, none, some []⟩)
          "first-contentful-paint")
        (displayOrNA (Report.audits ⟨none, none, none, some []⟩)
          "largest-contentful-paint")
        (displayOrNA (Report.audits ⟨none, none, none, some []⟩)
          "total-byte-weight") ∈
      sendResultsToAPI "test_1_a" (some ⟨none, none, none, some []⟩)
        PostOutcome.ok :=
  metrics_default_na (some []) (some [("first-contentful-paint", ⟨none⟩)])
    "first-contentful-paint" ⟨none⟩ "test_1_a"
    ⟨none, none, none, some []⟩ PostOutcome.ok rfl (by decide) rfl

/-- C9: when the engine resolves but yields no lhr report, the runner
still calls deliver with the undefined report; inside the delivery
routine the property access on undefined raises, the error is caught and
logged, no collector post happens, and the whole background job still
runs to completion. -/
theorem missing_report_caught (testId url : String) (ctx : Nat)
    (post : PostOutcome) (res : Option RunnerResult)
    (h : extractLhr res = none) :
    backgroundJob testId url ctx LaunchOutcome.ok (EngineOutcome.ok res)
        post =
      [Event.launchCtx ctx, Event.engineCall ctx url, Event.closeCtx ctx,
       Event.logDone testId, Event.callDeliver testId none,
       Event.logSendError
         ["TypeError: cannot read properties of undefined"]] ∧
    Event.callDeliver testId none ∈
      backgroundJob testId url ctx LaunchOutcome.ok (EngineOutcome.ok res)
        post ∧
    (backgroundJob testId url ctx LaunchOutcome.ok (EngineOutcome.ok res)
        post).countP Event.isPost = 0 := by
  have htr : backgroundJob testId url ctx LaunchOutcome.ok
      (EngineOutcome.ok res) post =
      [Event.launchCtx ctx, Event.engineCall ctx url, Event.closeCtx ctx,
       Event.logDone testId, Event.callDeliver testId none,
       Event.logSendError
         ["TypeError: cannot read properties of undefined"]] := by
    simp [backgroundJob, executeLighthouse, h, sendResultsToAPI]
  refine ⟨htr, ?_, ?_⟩
  · rw [htr]
    simp
  · rw [htr]
    rfl

/-- Witness for C9 at a runner result carrying no lhr field. -/
theorem missing_report_caught_witness :
    backgroundJob "test_1_a" "https://example.com" 0 LaunchOutcome.ok
        (EngineOutcome.ok (some ⟨none⟩)) PostOutcome.ok =
      [Event.launchCtx 0, Event.engineCall 0 "https://example.com",
       Event.closeCtx 0, Event.logDone "test_1_a",
       Event.callDeliver "test_1_a" none,
       Event.logSendError
         ["TypeError: cannot read properties of undefined"]] ∧
    Event.callDeliver "test_1_a" none ∈
      backgroundJob "test_1_a" "https://example.com" 0 LaunchOutcome.ok
        (EngineOutcome.ok (some ⟨none⟩)) PostOutcome.ok ∧
    (backgroundJob "test_1_a" "https://example.com" 0 LaunchOutcome.ok
        (EngineOutcome.ok (some ⟨none⟩)) PostOutcome.ok).countP
      Event.isPost = 0 :=
  missing_report_caught "test_1_a" "https://example.com" 0 PostOutcome.ok
    (some ⟨none⟩) rfl

lemma catScore_zero {d : CategoryData}
    (h : d.score = none ∨ d.score = some 0) : catScore d = 0 := by
  have hz : scoreOrZero d.score = 0 := by
    rcases h with h | h <;> rw [h] <;> rfl
  rw [catScore, hz]
  apply jsRound_eq <;> norm_num

/-- C10: a category entry whose score is absent (or null, or zero)
renders in the summary as the integer 0 with the red lowest-tier marker;
the category line is still emitted, not skipped and not rendered as
N/A. -/
theorem zero_score_rendered (testId : String) (r : Report)
    (post : PostOutcome) (cats : List (String × CategoryData)) (c : String)
    (d : CategoryData) (hc : r.categories = some cats)
    (hmem : (c, d) ∈ cats) (hs : d.score = none ∨ d.score = some 0) :
    catScore d = 0 ∧ catEmoji (catScore d) = "🔴" ∧
    Event.logCategory c 0 "🔴" ∈ sendResultsToAPI testId (some r) post := by
  have h0 := catScore_zero hs
  refine ⟨h0, by rw [h0]; exact catEmoji_red (by norm_num), ?_⟩
  have := mem_sendResults_of_mem_categories testId r post cats (c, d) hc hmem
  rw [h0] at this
  rw [catEmoji_red (by norm_num : (0 : ℤ) < 50)] at this
  exact this

/-- Witness for C10 at a report whose single category has no score. -/
theorem zero_score_rendered_witness :
    catScore ⟨none⟩ = 0 ∧ catEmoji (catScore ⟨none⟩) = "🔴" ∧
    Event.logCategory "seo" 0 "🔴" ∈
      sendResultsToAPI "test_1_a"
        (some ⟨none, none, some [("seo", ⟨none⟩)], none⟩) PostOutcome.ok :=
  zero_score_rendered "test_1_a"
    ⟨none, none, some [("seo", ⟨none⟩)], none⟩ PostOutcome.ok
    [("seo", ⟨none⟩)] "seo" ⟨none⟩ rfl (List.mem_cons_self _ _)
    (Or.inl rfl)

lemma digitChar_inj_lt : ∀ d < 10, ∀ e < 10,
    digitChar d = digitChar e → d = e := by decide

lemma digitChar_ne_underscore : ∀ d < 10, digitChar d ≠ '_' := by decide

lemma map_digitChar_inj : ∀ l₁ l₂ : List Nat, (∀ d ∈ l₁, d < 10) →
    (∀ d ∈ l₂, d < 10) → l₁.map digitChar = l₂.map digitChar → l₁ = l₂ := by
  intro l₁
  induction l₁ with
  | nil =>
    intro l₂ _ _ h
    cases l₂ with
    | nil => rfl
    | cons b bs => simp at h
  | cons a as ih =>
    intro l₂ hb₁ hb₂ h
    cases l₂ with
    | nil => simp at h
    | cons b bs =>
      simp only [List.map_cons, List.cons.injEq] at h
      have hab := digitChar_inj_lt a (hb₁ a (List.mem_cons_self a as))
        b (hb₂ b (List.mem_cons_self b bs)) h.1
      subst hab
      rw [ih bs (fun d hd => hb₁ d (List.mem_cons_of_mem _ hd))
        (fun d hd => hb₂ d (List.mem_cons_of_mem _ hd)) h.2]

lemma natDecimal_no_underscore (n : Nat) : '_' ∉ (natDecimal n).data := by
  by_cases hn : n = 0
  · rw [natDecimal, if_pos hn]
    decide
  · rw [natDecimal, if_neg hn]
    intro hmem
    have hmem' : '_' ∈ ((Nat.digits 10 n).map digitChar).reverse := hmem
    rw [List.mem_reverse] at hmem'
    obtain ⟨d, hd, hc⟩ := List.mem_map.mp hmem'
    exact digitChar_ne_underscore d (Nat.digits_lt_base (by norm_num) hd) hc

lemma natDecimal_eq_zero_string {n : Nat} (h : natDecimal n = "0") :
    n = 0 := by
  by_contra hn
  rw [natDecimal, if_neg hn] at h
  have hd : ((Nat.digits 10 n).map digitChar).reverse = ['0'] :=
    congrArg String.data h
  have hmap : (Nat.digits 10 n).map digitChar = ['0'] := by
    have := congrArg List.reverse hd
    simpa using this
  cases hds : Nat.digits 10 n with
  | nil =>
    rw [hds] at hmap
    simp at hmap
  | cons d ds =>
    rw [hds] at hmap
    simp only [List.map_cons, List.cons.injEq] at hmap
    have hds0 : ds = [] := List.map_eq_nil_iff.mp hmap.2
    have hd10 : d < 10 :=
      Nat.digits_lt_base (by norm_num) (hds ▸ List.mem_cons_self d ds)
    have hdz : d = 0 :=
      digitChar_inj_lt d hd10 0 (by norm_num) (by rw [hmap.1]; rfl)
    have hofs := Nat.ofDigits_digits 10 n
    rw [hds, hds0, hdz] at hofs
    simp [Nat.ofDigits] at hofs
    exact hn hofs.symm

lemma natDecimal_inj {m n : Nat} (h : natDecimal m = natDecimal n) :
    m = n := by
  have h0 : natDecimal 0 = "0" := rfl
  by_cases hm : m = 0
  · by_cases hn : n = 0
    · rw [hm, hn]
    · subst hm
      exact absurd (natDecimal_eq_zero_string (h.symm.trans h0)) hn
  · by_cases hn : n = 0
    · subst hn
      exact absurd (natDecimal_eq_zero_string (h.trans h0)) hm
    · rw [natDecimal, if_neg hm, natDecimal, if_neg hn] at h
      have hd : ((Nat.digits 10 m).map digitChar).reverse =
          ((Nat.digits 10 n).map digitChar).reverse :=
        congrArg String.data h
      have hrev := List.reverse_injective hd
      have hmap := map_digitChar_inj _ _
        (fun d hdm => Nat.digits_lt_base (by norm_num) hdm)
        (fun d hdn => Nat.digits_lt_base (by norm_num) hdn) hrev
      calc m = Nat.ofDigits 10 (Nat.digits 10 m) :=
              (Nat.ofDigits_digits 10 m).symm
        _ = Nat.ofDigits 10 (Nat.digits 10 n) := by rw [hmap]
        _ = n := Nat.ofDigits_digits 10 n

lemma sep_split {c : Char} : ∀ l₁ l₂ t₁ t₂ : List Char, c ∉ l₁ → c ∉ l₂ →
    l₁ ++ c :: t₁ = l₂ ++ c :: t₂ → l₁ = l₂ ∧ t₁ = t₂ := by
  intro l₁
  induction l₁ with
  | nil =>
    intro l₂ t₁ t₂ _ h₂ h
    cases l₂ with
    | nil => simpa using h
    | cons b bs =>
      rw [List.nil_append, List.cons_append] at h
      injection h with hc _
      exfalso
      apply h₂
      rw [hc]
      exact List.mem_cons_self b bs
  | cons a as ih =>
    intro l₂ t₁ t₂ h₁ h₂ h
    cases l₂ with
    | nil =>
      rw [List.nil_append, List.cons_append] at h
      injection h with hc _
      exfalso
      apply h₁
      rw [← hc]
      exact List.mem_cons_self a as
    | cons b bs =>
      rw [List.cons_append, List.cons_append] at h
      injection h with hab ht
      subst hab
      obtain ⟨hl, htt⟩ := ih bs t₁ t₂
        (fun hm => h₁ (List.mem_cons_of_mem _ hm))
        (fun hm => h₂ (List.mem_cons_of_mem _ hm)) ht
      exact ⟨by rw [hl], htt⟩

lemma mkTestId_inj (now₁ now₂ : Nat) (rand₁ rand₂ : String)
    (h : mkTestId now₁ rand₁ = mkTestId now₂ rand₂) :
    now₁ = now₂ ∧ rand₁ = rand₂ := by
  have hd : ("test_" : String).data ++ ((natDecimal now₁).data ++
      (("_" : String).data ++ rand₁.data)) =
      ("test_" : String).data ++ ((natDecimal now₂).data ++
      (("_" : String).data ++ rand₂.data)) := by
    have := congrArg String.data h
    simpa [mkTestId, String.data_append, List.append_assoc] using this
  have hd' := List.append_cancel_left hd
  rw [show ("_" : String).data = ['_'] from rfl, List.singleton_append,
    List.singleton_append] at hd'
  obtain ⟨hn, hr⟩ := sep_split _ _ _ _ (natDecimal_no_underscore now₁)
    (natDecimal_no_underscore now₂) hd'
  constructor
  · exact natDecimal_inj (congrArg String.mk hn)
  · exact congrArg String.mk hr

lemma mkTestId_ne_empty (now : Nat) (rand : String) :
    mkTestId now rand ≠ "" := by
  intro h
  have hd : (("test_" : String).data ++ (natDecimal now).data ++
      ("_" : String).data) ++ rand.data = [] := by
    have hdata := congrArg String.data h
    simp only [mkTestId, String.data_append] at hdata
    exact hdata
  have h1 := (List.append_eq_nil.mp hd).1
  have h2 := (List.append_eq_nil.mp h1).1
  have h3 := (List.append_eq_nil.mp h2).1
  exact absurd h3 (by decide)

/-- C8 (amended): two accepted requests receive distinct ids whenever
their oracle values — the Date.now millisecond and the Math.random
suffix — differ as a pair; ids of requests observing the same
millisecond and the same random suffix coincide.  Every generated id is
a non-empty string and is returned to the caller with status
pending. -/
theorem testId_unique_for_fresh_oracle (now₁ now₂ : Nat)
    (rand₁ rand₂ : String) (body : AnalyzeBody) (validURL : String → Bool)
    (hne : (now₁, rand₁) ≠ (now₂, rand₂))
    (hurl : urlFalsy body.url = false)
    (hv : validURL (body.url.getD "") = true) :
    mkTestId now₁ rand₁ ≠ mkTestId now₂ rand₂ ∧
    mkTestId now₁ rand₁ ≠ "" ∧
    Event.respond 200 (RespBody.pending (mkTestId now₁ rand₁)
        "Test Lighthouse en cours...") ∈
      (handleAnalyze body validURL now₁ rand₁).1 := by
  refine ⟨?_, mkTestId_ne_empty now₁ rand₁, ?_⟩
  · intro h
    obtain ⟨hn, hr⟩ := mkTestId_inj now₁ now₂ rand₁ rand₂ h
    exact hne (by rw [hn, hr])
  · simp [handleAnalyze, hurl, hv]

/-- Witness for C8 at two oracle pairs differing in the millisecond. -/
theorem testId_unique_for_fresh_oracle_witness :
    mkTestId 1 "abc" ≠ mkTestId 2 "abc" ∧
    mkTestId 1 "abc" ≠ "" ∧
    Event.respond 200 (RespBody.pending (mkTestId 1 "abc")
        "Test Lighthouse en cours...") ∈
      (handleAnalyze ⟨some "https://example.com", []⟩ (fun _ => true) 1
        "abc").1 :=
  testId_unique_for_fresh_oracle 1 2 "abc" "abc"
    ⟨some "https://example.com", []⟩ (fun _ => true) (by decide) (by decide)
    rfl

/-- C8 counterexample: two distinct accepted requests — they carry
different urls — observing the same Date.now millisecond and the same
Math.random suffix receive exactly the same job id, so distinct accepted
requests do not always receive distinct ids. -/
theorem testId_collision_counterexample :
    (handleAnalyze ⟨some "https://a.example", []⟩ (fun _ => true) 1700
        "k7p").2 = some ⟨mkTestId 1700 "k7p", "https://a.example", []⟩ ∧
    (handleAnalyze ⟨some "https://b.example", []⟩ (fun _ => true) 1700
        "k7p").2 = some ⟨mkTestId 1700 "k7p", "https://b.example", []⟩ ∧
    AnalyzeBody.mk (some "https://a.example") [] ≠
      AnalyzeBody.mk (some "https://b.example") [] := by
  exact ⟨rfl, rfl, by decide⟩

end Lighthouse
